import Mathlib

/-!
Shallow embedding of the QKart cart service
(src/services/cart.service.js together with the address check of
src/models/user.model.js).

The persistence layer is modelled as an explicit state: the cart document
owned by the authenticated user (if any), the products collection, and the
user document. Each service operation is a function from a state to a pair
of the new state and an `Except` result; a thrown `ApiError` becomes the
`error` branch. Monetary amounts and quantities are integers.
-/

namespace QKart

/-- A product record of the products collection (only the fields the cart
service reads: the id and the cost). -/
structure Product where
  _id : String
  cost : Int
  deriving DecidableEq

/-- A cart line item: a denormalized product snapshot plus a quantity, as
pushed by `addProductToCart`. -/
structure CartItem where
  product : Product
  quantity : Int
  deriving DecidableEq

/-- A cart document: owner email and the ordered list of cart items. -/
structure Cart where
  email : String
  cartItems : List CartItem
  deriving DecidableEq

/-- A user document (the fields the cart service touches). -/
structure User where
  email : String
  walletMoney : Int
  address : String
  deriving DecidableEq

/-- Process-wide configuration (src/config/config.js): the default address
that signals an unset address. -/
structure Config where
  default_address : String
  deriving DecidableEq

/-- A thrown ApiError: an HTTP status code and a message. -/
structure ApiError where
  statusCode : Nat
  message : String
  deriving DecidableEq

def NOT_FOUND : Nat := 404
def BAD_REQUEST : Nat := 400
def INTERNAL_SERVER_ERROR : Nat := 500

/-- The persisted state visible to the cart service for one authenticated
user: the cart document owned by that user (if any), the products
collection, and the user document itself. -/
structure State where
  cart : Option Cart
  products : List Product
  user : User
  deriving DecidableEq

/-- The user-model method hasSetNonDefaultAddress
(src/models/user.model.js): true when the address differs from the
configured default address. -/
def hasSetNonDefaultAddress (cfg : Config) (user : User) : Bool :=
  user.address != cfg.default_address

/-- Product.findById: look up a product by id in the products collection. -/
def findById (products : List Product) (productId : String) : Option Product :=
  products.find? (fun p => p._id == productId)

/-- The predicate used by the service for membership tests in cartItems:
item.product._id.toString() === productId. -/
def matchesId (productId : String) (item : CartItem) : Bool :=
  item.product._id == productId

/-- JS Array.prototype.findIndex over cart items, with -1 rendered as
`none`. -/
def findIndexOf (p : CartItem → Bool) : List CartItem → Option Nat
  | [] => none
  | item :: rest =>
    if p item then some 0 else (findIndexOf p rest).map (fun n => n + 1)

/-- JS splice(idx, 1): remove the element at the given index. -/
def spliceOne : List CartItem → Nat → List CartItem
  | [], _ => []
  | _ :: rest, 0 => rest
  | item :: rest, n + 1 => item :: spliceOne rest n

/-- In-place assignment cartItems[idx].quantity = q. -/
def setQuantityAt : List CartItem → Nat → Int → List CartItem
  | [], _, _ => []
  | item :: rest, 0, q => { item with quantity := q } :: rest
  | item :: rest, n + 1, q => item :: setQuantityAt rest n q

/-- getCartByUser: fetch the cart of the user, 404 if there is none. -/
def getCartByUser (st : State) : Except ApiError Cart :=
  match st.cart with
  | none => .error ⟨NOT_FOUND, "User does not have a cart"⟩
  | some cart => .ok cart

/-- addProductToCart: find (or lazily create and persist) the cart, reject
a product already in the cart, reject an unknown product, else push a new
item with a snapshot of the product and save. -/
def addProductToCart (st : State) (productId : String) (quantity : Int) :
    State × Except ApiError Cart :=
  let cart : Cart :=
    match st.cart with
    | none => { email := st.user.email, cartItems := [] }
    | some c => c
  -- Cart.create persists the newly created empty cart document
  let st1 : State := { st with cart := some cart }
  if cart.cartItems.any (matchesId productId) then
    (st1, .error ⟨BAD_REQUEST,
      "Product already in cart. Use the cart sidebar to update or remove product from cart"⟩)
  else
    match findById st1.products productId with
    | none => (st1, .error ⟨BAD_REQUEST, "Product doesn\x27t exist in database"⟩)
    | some product =>
      let cart2 : Cart :=
        { cart with cartItems := cart.cartItems ++ [{ product := product, quantity := quantity }] }
      ({ st1 with cart := some cart2 }, .ok cart2)

/-- updateProductInCart: require an existing cart, a known product and a
matching cart item, then assign the new quantity in place and save. -/
def updateProductInCart (st : State) (productId : String) (quantity : Int) :
    State × Except ApiError Cart :=
  match st.cart with
  | none => (st, .error ⟨BAD_REQUEST,
      "User does not have a cart. Use POST to create cart and add a product"⟩)
  | some cart =>
    match findById st.products productId with
    | none => (st, .error ⟨BAD_REQUEST, "Product doesn\x27t exist in database"⟩)
    | some _ =>
      match findIndexOf (matchesId productId) cart.cartItems with
      | none => (st, .error ⟨BAD_REQUEST, "Product not in cart"⟩)
      | some idx =>
        let cart2 : Cart := { cart with cartItems := setQuantityAt cart.cartItems idx quantity }
        ({ st with cart := some cart2 }, .ok cart2)

/-- deleteProductFromCart: require an existing cart and a matching cart
item, then splice that item out and save. -/
def deleteProductFromCart (st : State) (productId : String) :
    State × Except ApiError Unit :=
  match st.cart with
  | none => (st, .error ⟨BAD_REQUEST, "User does not have a cart."⟩)
  | some cart =>
    match findIndexOf (matchesId productId) cart.cartItems with
    | none => (st, .error ⟨BAD_REQUEST, "Product not in cart"⟩)
    | some idx =>
      let cart2 : Cart := { cart with cartItems := spliceOne cart.cartItems idx }
      ({ st with cart := some cart2 }, .ok ())

/-- The cartItems.reduce in checkout: sum of cost times quantity. -/
def totalCost (items : List CartItem) : Int :=
  items.foldl (fun acc item => acc + item.product.cost * item.quantity) 0

/-- checkout: four guards in order (cart exists, cart non-empty, address
set, funds sufficient), then debit the wallet, save the user, empty the
cart and save the cart. -/
def checkout (cfg : Config) (st : State) : State × Except ApiError Unit :=
  match st.cart with
  | none => (st, .error ⟨NOT_FOUND, "User does not have a cart"⟩)
  | some cart =>
    if cart.cartItems.length == 0 then
      (st, .error ⟨BAD_REQUEST, "Cart is empty"⟩)
    else if !hasSetNonDefaultAddress cfg st.user then
      (st, .error ⟨BAD_REQUEST, "Address not set"⟩)
    else
      let total := totalCost cart.cartItems
      if total > st.user.walletMoney then
        (st, .error ⟨BAD_REQUEST, "User has insufficient money to process"⟩)
      else
        let user2 : User := { st.user with walletMoney := st.user.walletMoney - total }
        let cart2 : Cart := { cart with cartItems := [] }
        ({ st with user := user2, cart := some cart2 }, .ok ())

/-! Concrete values used by the witness theorems, taken from the checkout
scenarios of the specification. -/

def demoCfg : Config := { default_address := "ADDRESS_NOT_SET" }

def demoProduct : Product := { _id := "p1", cost := 100 }

def demoCart : Cart :=
  { email := "crio@x.com", cartItems := [{ product := demoProduct, quantity := 3 }] }

def demoUser : User :=
  { email := "crio@x.com", walletMoney := 500, address := "123 Main St" }

def demoState : State :=
  { cart := some demoCart, products := [demoProduct], user := demoUser }

def noCartState : State :=
  { cart := none, products := [demoProduct], user := demoUser }

/-! Helper lemmas about checkout, shared by several claim theorems. -/

theorem length_beq_zero_false (c : Cart) (hne : c.cartItems ≠ []) :
    (c.cartItems.length == 0) = false := by
  simp only [beq_eq_false_iff_ne, ne_eq, List.length_eq_zero]
  exact hne

theorem checkout_ok_of_le (cfg : Config) (st : State) (c : Cart)
    (hc : st.cart = some c) (hne : c.cartItems ≠ [])
    (haddr : st.user.address ≠ cfg.default_address)
    (hbal : totalCost c.cartItems ≤ st.user.walletMoney) :
    checkout cfg st =
      ({ st with
          user := { st.user with walletMoney := st.user.walletMoney - totalCost c.cartItems },
          cart := some { c with cartItems := [] } }, .ok ()) := by
  unfold checkout
  rw [hc]
  have h1 := length_beq_zero_false c hne
  have h2 : (!hasSetNonDefaultAddress cfg st.user) = false := by
    simp [hasSetNonDefaultAddress, haddr]
  have h3 : ¬ (totalCost c.cartItems > st.user.walletMoney) := not_lt.mpr hbal
  simp [h1, h2, h3]

theorem checkout_err_of_lt (cfg : Config) (st : State) (c : Cart)
    (hc : st.cart = some c) (hne : c.cartItems ≠ [])
    (haddr : st.user.address ≠ cfg.default_address)
    (hlt : st.user.walletMoney < totalCost c.cartItems) :
    checkout cfg st =
      (st, .error ⟨BAD_REQUEST, "User has insufficient money to process"⟩) := by
  unfold checkout
  rw [hc]
  have h1 := length_beq_zero_false c hne
  have h2 : (!hasSetNonDefaultAddress cfg st.user) = false := by
    simp [hasSetNonDefaultAddress, haddr]
  have h3 : totalCost c.cartItems > st.user.walletMoney := hlt
  simp [h1, h2, h3]

/-- C1: for every user with an existing non-empty cart, an address that
differs from the configured default, and a wallet balance at least the
total cost, checkout succeeds; afterwards the wallet balance is the old
balance minus the total cost and the cart item list is empty. -/
theorem checkout_success_spec (cfg : Config) (st : State) (c : Cart)
    (hc : st.cart = some c) (hne : c.cartItems ≠ [])
    (haddr : st.user.address ≠ cfg.default_address)
    (hbal : totalCost c.cartItems ≤ st.user.walletMoney) :
    checkout cfg st =
      ({ st with
          user := { st.user with walletMoney := st.user.walletMoney - totalCost c.cartItems },
          cart := some { c with cartItems := [] } }, .ok ()) :=
  checkout_ok_of_le cfg st c hc hne haddr hbal

/-- Witness for C1: the spec scenario with wallet balance 500, non-default
address, and one cart item of cost 100 and quantity 3 yields balance 200
and an empty cart. -/
theorem checkout_success_spec_witness :
    checkout demoCfg demoState =
      ({ cart := some { email := "crio@x.com", cartItems := [] },
         products := [demoProduct],
         user := { email := "crio@x.com", walletMoney := 200, address := "123 Main St" } },
       .ok ()) :=
  (checkout_success_spec demoCfg demoState demoCart rfl (by decide) (by decide)
    (by decide)).trans (by rfl)

/-- C3: whenever checkout fails with any error, the state (wallet balance
and cart item list included) is unchanged. -/
theorem checkout_error_frame (cfg : Config) (st : State) (e : ApiError)
    (h : (checkout cfg st).2 = Except.error e) : (checkout cfg st).1 = st := by
  obtain ⟨cartOpt, products, user⟩ := st
  cases cartOpt with
  | none => rfl
  | some cart =>
    unfold checkout at h ⊢
    dsimp only at h ⊢
    split_ifs at h ⊢ <;> rfl

/-- Witness for C3: a user without a cart fails checkout with 404 and the
state is unchanged. -/
theorem checkout_error_frame_witness :
    (checkout demoCfg noCartState).2 = Except.error ⟨NOT_FOUND, "User does not have a cart"⟩
    ∧ (checkout demoCfg noCartState).1 = noCartState :=
  ⟨by rfl,
   checkout_error_frame demoCfg noCartState ⟨NOT_FOUND, "User does not have a cart"⟩ (by rfl)⟩

def demoCart6 : Cart :=
  { email := "crio@x.com", cartItems := [{ product := demoProduct, quantity := 6 }] }

def demoState6 : State :=
  { cart := some demoCart6, products := [demoProduct], user := demoUser }

/-- C2: under the non-degenerate guards (cart present, non-empty, address
not default), checkout fails with the insufficient-money BadRequest iff
the total cost strictly exceeds the wallet balance; on exact equality it
succeeds and leaves the balance at zero. -/
theorem checkout_insufficient_iff (cfg : Config) (st : State) (c : Cart)
    (hc : st.cart = some c) (hne : c.cartItems ≠ [])
    (haddr : st.user.address ≠ cfg.default_address) :
    ((checkout cfg st).2 =
        Except.error ⟨BAD_REQUEST, "User has insufficient money to process"⟩
      ↔ st.user.walletMoney < totalCost c.cartItems)
    ∧ (totalCost c.cartItems = st.user.walletMoney →
        (checkout cfg st).2 = Except.ok ()
        ∧ (checkout cfg st).1.user.walletMoney = 0) := by
  constructor
  · constructor
    · intro herr
      by_contra hnlt
      push_neg at hnlt
      rw [checkout_ok_of_le cfg st c hc hne haddr hnlt] at herr
      simp at herr
    · intro hlt
      rw [checkout_err_of_lt cfg st c hc hne haddr hlt]
  · intro heq
    have hle : totalCost c.cartItems ≤ st.user.walletMoney := le_of_eq heq
    rw [checkout_ok_of_le cfg st c hc hne haddr hle]
    refine ⟨rfl, ?_⟩
    simp [heq]

/-- Witness for C2: the spec scenario with wallet balance 500 and one cart
item of cost 100 and quantity 6 (total 600): the failure iff holds, and so
does the exact-balance implication. -/
theorem checkout_insufficient_iff_witness :
    (((checkout demoCfg demoState6).2 =
        Except.error ⟨BAD_REQUEST, "User has insufficient money to process"⟩
      ↔ demoState6.user.walletMoney < totalCost demoCart6.cartItems)
    ∧ (totalCost demoCart6.cartItems = demoState6.user.walletMoney →
        (checkout demoCfg demoState6).2 = Except.ok ()
        ∧ (checkout demoCfg demoState6).1.user.walletMoney = 0)) :=
  checkout_insufficient_iff demoCfg demoState6 demoCart6 rfl (by decide) (by decide)

def defaultAddrUser : User :=
  { email := "crio@x.com", walletMoney := 500, address := "ADDRESS_NOT_SET" }

def defaultAddrNoCartState : State :=
  { cart := none, products := [demoProduct], user := defaultAddrUser }

/-- Counterexample to C4 as stated: a user whose address equals the
configured default but who has no cart fails checkout with the 404
no-cart error, not with BadRequest "Address not set". -/
theorem checkout_default_address_cex :
    defaultAddrNoCartState.user.address = demoCfg.default_address
    ∧ (checkout demoCfg defaultAddrNoCartState).2
        = Except.error ⟨NOT_FOUND, "User does not have a cart"⟩
    ∧ ¬ (checkout demoCfg defaultAddrNoCartState).2
        = Except.error ⟨BAD_REQUEST, "Address not set"⟩ := by
  refine ⟨rfl, rfl, ?_⟩
  intro h
  injection h with h2
  exact absurd h2 (by decide)

/-- C4 (amended): for every user whose address equals the configured
default address and whose cart exists and is non-empty, checkout fails
with BadRequest "Address not set" regardless of the wallet balance and of
the cart contents; when the user has no cart or an empty cart, the
earlier no-cart or empty-cart guard fails first instead. -/
theorem checkout_default_address_fails (cfg : Config) (st : State) (c : Cart)
    (hc : st.cart = some c) (hne : c.cartItems ≠ [])
    (haddr : st.user.address = cfg.default_address) :
    checkout cfg st = (st, .error ⟨BAD_REQUEST, "Address not set"⟩) := by
  unfold checkout
  rw [hc]
  have h1 := length_beq_zero_false c hne
  have h2 : (!hasSetNonDefaultAddress cfg st.user) = true := by
    simp [hasSetNonDefaultAddress, haddr]
  simp [h1, h2]

def defaultAddrCartState : State :=
  { cart := some demoCart, products := [demoProduct], user := defaultAddrUser }

/-- Witness for C4 (amended): a user with the default address and a
non-empty cart fails checkout with "Address not set". -/
theorem checkout_default_address_fails_witness :
    checkout demoCfg defaultAddrCartState
      = (defaultAddrCartState, .error ⟨BAD_REQUEST, "Address not set"⟩) :=
  checkout_default_address_fails demoCfg defaultAddrCartState demoCart rfl (by decide) rfl

/-! Helper lemmas about addProductToCart. -/

theorem addProduct_conflict_of_mem (st : State) (pid : String) (q : Int) (c : Cart)
    (hc : st.cart = some c)
    (hmem : c.cartItems.any (matchesId pid) = true) :
    addProductToCart st pid q =
      (st, .error ⟨BAD_REQUEST,
        "Product already in cart. Use the cart sidebar to update or remove product from cart"⟩) := by
  obtain ⟨cartOpt, products, user⟩ := st
  simp only at hc
  subst hc
  unfold addProductToCart
  simp [hmem]

/-- Counterexample to C5 as stated: with an unknown productId and no
existing cart, addProductToCart does fail with the expected BadRequest,
but a new empty cart document has been created and persisted, so the cart
state for the user is mutated after all. -/
theorem addProduct_unknown_cex :
    noCartState.cart = none
    ∧ findById noCartState.products "p9" = none
    ∧ (addProductToCart noCartState "p9" 1).2
        = Except.error ⟨BAD_REQUEST, "Product doesn\x27t exist in database"⟩
    ∧ (addProductToCart noCartState "p9" 1).1.cart
        = some { email := "crio@x.com", cartItems := [] } :=
  ⟨rfl, rfl, rfl, rfl⟩

/-- C5 (amended): for an unknown productId that is not already in the
cart, addProductToCart fails with BadRequest and never changes the items
of an existing cart; however, when the user had no cart, an empty cart
document is created and persisted before the failure. -/
theorem addProduct_unknown_fails (st : State) (pid : String) (q : Int)
    (hnp : findById st.products pid = none)
    (hni : ∀ c, st.cart = some c → c.cartItems.any (matchesId pid) = false) :
    (addProductToCart st pid q).2
      = Except.error ⟨BAD_REQUEST, "Product doesn\x27t exist in database"⟩
    ∧ (∀ c, st.cart = some c → (addProductToCart st pid q).1 = st)
    ∧ (st.cart = none →
        (addProductToCart st pid q).1
          = { st with cart := some { email := st.user.email, cartItems := [] } }) := by
  obtain ⟨cartOpt, products, user⟩ := st
  simp only at hnp hni ⊢
  cases cartOpt with
  | none =>
    unfold addProductToCart
    simp [hnp]
  | some c =>
    have hni2 := hni c rfl
    unfold addProductToCart
    simp [hni2, hnp]

/-- Witness for C5 (amended): adding unknown product p9 for a user with an
existing cart fails with BadRequest and leaves the state unchanged. -/
theorem addProduct_unknown_fails_witness :
    (addProductToCart demoState "p9" 1).2
      = Except.error ⟨BAD_REQUEST, "Product doesn\x27t exist in database"⟩
    ∧ (∀ c, demoState.cart = some c → (addProductToCart demoState "p9" 1).1 = demoState)
    ∧ (demoState.cart = none →
        (addProductToCart demoState "p9" 1).1
          = { demoState with cart := some { email := demoState.user.email, cartItems := [] } }) :=
  addProduct_unknown_fails demoState "p9" 1 rfl
    (fun c hc => by injection hc with h; subst h; decide)

/-- C6: adding a productId that the cart already holds (exactly one item
for it, as the uniqueness invariant guarantees) fails with the Conflict
BadRequest and leaves the whole state, in particular that single item and
its quantity, unchanged. -/
theorem addProduct_duplicate_unchanged (st : State) (pid : String) (q : Int) (c : Cart)
    (hc : st.cart = some c)
    (hcount : c.cartItems.countP (matchesId pid) = 1) :
    (addProductToCart st pid q).2
      = Except.error ⟨BAD_REQUEST,
          "Product already in cart. Use the cart sidebar to update or remove product from cart"⟩
    ∧ (addProductToCart st pid q).1 = st
    ∧ (∀ c2, (addProductToCart st pid q).1.cart = some c2 →
        c2.cartItems.countP (matchesId pid) = 1) := by
  have hmem : c.cartItems.any (matchesId pid) = true := by
    rw [List.any_eq_true]
    have hpos : 0 < c.cartItems.countP (matchesId pid) := by omega
    exact List.countP_pos_iff.mp hpos
  rw [addProduct_conflict_of_mem st pid q c hc hmem]
  refine ⟨rfl, rfl, ?_⟩
  intro c2 hc2
  rw [hc] at hc2
  injection hc2 with h
  rw [← h]
  exact hcount

/-- Witness for C6: adding p1 again to a cart already holding p1 fails
with the Conflict message and the cart keeps exactly one p1 item. -/
theorem addProduct_duplicate_unchanged_witness :
    (addProductToCart demoState "p1" 5).2
      = Except.error ⟨BAD_REQUEST,
          "Product already in cart. Use the cart sidebar to update or remove product from cart"⟩
    ∧ (addProductToCart demoState "p1" 5).1 = demoState
    ∧ (∀ c2, (addProductToCart demoState "p1" 5).1.cart = some c2 →
        c2.cartItems.countP (matchesId "p1") = 1) :=
  addProduct_duplicate_unchanged demoState "p1" 5 demoCart rfl (by decide)

def stalePidState : State :=
  { cart := some demoCart, products := [], user := demoUser }

/-- C10: the duplicate-in-cart guard runs before the product-existence
guard: if the cart already holds an item for the productId, the call fails
with the Conflict message even when the productId resolves to no product
in the database. -/
theorem addProduct_duplicate_guard_first (st : State) (pid : String) (q : Int) (c : Cart)
    (hc : st.cart = some c)
    (hmem : c.cartItems.any (matchesId pid) = true)
    (hnp : findById st.products pid = none) :
    (addProductToCart st pid q).2
      = Except.error ⟨BAD_REQUEST,
          "Product already in cart. Use the cart sidebar to update or remove product from cart"⟩ := by
  rw [addProduct_conflict_of_mem st pid q c hc hmem]

/-- Witness for C10: the cart holds p1 but the products collection is
empty; adding p1 still fails with the Conflict message, not the
unknown-product message. -/
theorem addProduct_duplicate_guard_first_witness :
    (addProductToCart stalePidState "p1" 2).2
      = Except.error ⟨BAD_REQUEST,
          "Product already in cart. Use the cart sidebar to update or remove product from cart"⟩ :=
  addProduct_duplicate_guard_first stalePidState "p1" 2 demoCart rfl (by decide) rfl

/-! Helper lemmas about findIndexOf, spliceOne and setQuantityAt on a
list split as pre ++ item :: post, where no element of pre matches and
item does. -/

theorem findIndexOf_split (p : CartItem → Bool) (pre post : List CartItem) (item : CartItem)
    (hpre : pre.all (fun it => !p it) = true) (hitem : p item = true) :
    findIndexOf p (pre ++ item :: post) = some pre.length := by
  induction pre with
  | nil => simp [findIndexOf, hitem]
  | cons a as ih =>
    simp only [List.all_cons, Bool.and_eq_true] at hpre
    obtain ⟨ha, has⟩ := hpre
    have ha2 : p a = false := by
      cases hpa : p a
      · rfl
      · rw [hpa] at ha; simp at ha
    simp [findIndexOf, ha2, ih has]

theorem spliceOne_split (pre post : List CartItem) (item : CartItem) :
    spliceOne (pre ++ item :: post) pre.length = pre ++ post := by
  induction pre with
  | nil => rfl
  | cons a as ih => simp [spliceOne, ih]

theorem setQuantityAt_split (pre post : List CartItem) (item : CartItem) (q : Int) :
    setQuantityAt (pre ++ item :: post) pre.length q
      = pre ++ { item with quantity := q } :: post := by
  induction pre with
  | nil => rfl
  | cons a as ih => simp [setQuantityAt, ih]

/-- C7: deleting a product that is in the cart succeeds and removes
exactly the first matching item: writing the items as pre ++ item :: post
with no match in pre, the result is pre ++ post, one shorter, all other
items unchanged and in their original relative order. -/
theorem deleteProduct_removes_exactly (st : State) (pid : String) (c : Cart)
    (pre post : List CartItem) (item : CartItem)
    (hc : st.cart = some c)
    (hsplit : c.cartItems = pre ++ item :: post)
    (hpre : pre.all (fun it => !matchesId pid it) = true)
    (hitem : matchesId pid item = true) :
    (deleteProductFromCart st pid).2 = Except.ok ()
    ∧ (deleteProductFromCart st pid).1
        = { st with cart := some { c with cartItems := pre ++ post } }
    ∧ (pre ++ post).length + 1 = c.cartItems.length := by
  have hidx : findIndexOf (matchesId pid) c.cartItems = some pre.length := by
    rw [hsplit]
    exact findIndexOf_split _ pre post item hpre hitem
  have hsp : spliceOne c.cartItems pre.length = pre ++ post := by
    rw [hsplit]
    exact spliceOne_split pre post item
  unfold deleteProductFromCart
  rw [hc]
  dsimp only
  rw [hidx]
  dsimp only
  rw [hsp]
  refine ⟨rfl, rfl, ?_⟩
  rw [hsplit]
  simp only [List.length_append, List.length_cons]
  omega

def demoProduct2 : Product := { _id := "p2", cost := 50 }

def demoItem1 : CartItem := { product := demoProduct, quantity := 3 }

def demoItem2 : CartItem := { product := demoProduct2, quantity := 1 }

def twoItemCart : Cart :=
  { email := "crio@x.com", cartItems := [demoItem1, demoItem2] }

def twoItemState : State :=
  { cart := some twoItemCart, products := [demoProduct, demoProduct2], user := demoUser }

/-- Witness for C7: deleting p2 from a two-item cart keeps exactly the p1
item. -/
theorem deleteProduct_removes_exactly_witness :
    (deleteProductFromCart twoItemState "p2").2 = Except.ok ()
    ∧ (deleteProductFromCart twoItemState "p2").1
        = { twoItemState with
            cart := some { twoItemCart with cartItems := [demoItem1] ++ [] } }
    ∧ ([demoItem1] ++ ([] : List CartItem)).length + 1 = twoItemCart.cartItems.length :=
  deleteProduct_removes_exactly twoItemState "p2" twoItemCart
    [demoItem1] [] demoItem2 rfl rfl (by decide) (by decide)

/-- C8: updating the quantity of a product that exists in the database
and in the cart succeeds, returns the updated cart, and only that item is
touched: its quantity becomes the new value while its product snapshot,
every other item, the order and the length are unchanged. -/
theorem updateProduct_in_place (st : State) (pid : String) (q : Int) (c : Cart)
    (p : Product) (pre post : List CartItem) (item : CartItem)
    (hc : st.cart = some c)
    (hp : findById st.products pid = some p)
    (hsplit : c.cartItems = pre ++ item :: post)
    (hpre : pre.all (fun it => !matchesId pid it) = true)
    (hitem : matchesId pid item = true) :
    (updateProductInCart st pid q).2
      = Except.ok { c with cartItems := pre ++ { item with quantity := q } :: post }
    ∧ (updateProductInCart st pid q).1
      = { st with
          cart := some { c with cartItems := pre ++ { item with quantity := q } :: post } } := by
  have hidx : findIndexOf (matchesId pid) c.cartItems = some pre.length := by
    rw [hsplit]
    exact findIndexOf_split _ pre post item hpre hitem
  have hset : setQuantityAt c.cartItems pre.length q
      = pre ++ { item with quantity := q } :: post := by
    rw [hsplit]
    exact setQuantityAt_split pre post item q
  unfold updateProductInCart
  rw [hc]
  dsimp only
  rw [hp]
  dsimp only
  rw [hidx]
  dsimp only
  rw [hset]
  exact ⟨rfl, rfl⟩

/-- Witness for C8: setting the quantity of p2 to 7 in the two-item cart
changes only that quantity. -/
theorem updateProduct_in_place_witness :
    (updateProductInCart twoItemState "p2" 7).2
      = Except.ok { twoItemCart with
          cartItems := [demoItem1] ++ { demoItem2 with quantity := 7 } :: [] }
    ∧ (updateProductInCart twoItemState "p2" 7).1
      = { twoItemState with
          cart := some { twoItemCart with
            cartItems := [demoItem1] ++ { demoItem2 with quantity := 7 } :: [] } } :=
  updateProduct_in_place twoItemState "p2" 7 twoItemCart demoProduct2
    [demoItem1] [] demoItem2 rfl rfl rfl (by decide) (by decide)

/-! The quantity-positivity invariant and its preservation lemmas. -/

/-- Every item of the cart document (if any) has a positive quantity. -/
def quantitiesPos (st : State) : Prop :=
  ∀ c, st.cart = some c → ∀ item ∈ c.cartItems, 0 < item.quantity

theorem mem_spliceOne (l : List CartItem) (n : Nat) (x : CartItem)
    (hx : x ∈ spliceOne l n) : x ∈ l := by
  induction l generalizing n with
  | nil => simp [spliceOne] at hx
  | cons a rest ih =>
    cases n with
    | zero => exact List.mem_cons_of_mem a hx
    | succ m =>
      simp only [spliceOne, List.mem_cons] at hx ⊢
      rcases hx with h | h
      · exact Or.inl h
      · exact Or.inr (ih m h)

theorem mem_setQuantityAt (l : List CartItem) (n : Nat) (q : Int) (x : CartItem)
    (hx : x ∈ setQuantityAt l n q) :
    x ∈ l ∨ ∃ y ∈ l, x = { y with quantity := q } := by
  induction l generalizing n with
  | nil => simp [setQuantityAt] at hx
  | cons a rest ih =>
    cases n with
    | zero =>
      simp only [setQuantityAt, List.mem_cons] at hx
      rcases hx with h | h
      · exact Or.inr ⟨a, List.mem_cons_self a rest, h⟩
      · exact Or.inl (List.mem_cons_of_mem a h)
    | succ m =>
      simp only [setQuantityAt, List.mem_cons] at hx
      rcases hx with h | h
      · exact Or.inl (List.mem_cons.mpr (Or.inl h))
      · rcases ih m h with h2 | ⟨y, hy, hxy⟩
        · exact Or.inl (List.mem_cons_of_mem a h2)
        · exact Or.inr ⟨y, List.mem_cons_of_mem a hy, hxy⟩

theorem addProduct_preserves_pos (st : State) (pid : String) (q : Int)
    (hinv : quantitiesPos st) (hq : 0 < q) :
    quantitiesPos (addProductToCart st pid q).1 := by
  obtain ⟨cartOpt, products, user⟩ := st
  intro c hc item hitem
  cases cartOpt with
  | none =>
    unfold addProductToCart at hc
    dsimp only at hc
    split at hc
    · injection hc with h
      subst h
      simp at hitem
    · split at hc
      · injection hc with h
        subst h
        simp at hitem
      · injection hc with h
        subst h
        simp only [List.nil_append, List.mem_singleton] at hitem
        subst hitem
        exact hq
  | some c0 =>
    have hinv2 : ∀ item ∈ c0.cartItems, 0 < item.quantity := hinv c0 rfl
    unfold addProductToCart at hc
    dsimp only at hc
    split at hc
    · injection hc with h
      subst h
      exact hinv2 item hitem
    · split at hc
      · injection hc with h
        subst h
        exact hinv2 item hitem
      · injection hc with h
        subst h
        simp only [List.mem_append, List.mem_singleton] at hitem
        rcases hitem with h | h
        · exact hinv2 item h
        · subst h
          exact hq

theorem updateProduct_preserves_pos (st : State) (pid : String) (q : Int)
    (hinv : quantitiesPos st) (hq : 0 < q) :
    quantitiesPos (updateProductInCart st pid q).1 := by
  obtain ⟨cartOpt, products, user⟩ := st
  intro c hc item hitem
  cases cartOpt with
  | none => exact absurd hc (by simp [updateProductInCart])
  | some c0 =>
    have hinv2 : ∀ item ∈ c0.cartItems, 0 < item.quantity := hinv c0 rfl
    unfold updateProductInCart at hc
    dsimp only at hc
    split at hc
    · injection hc with h
      subst h
      exact hinv2 item hitem
    · split at hc
      · injection hc with h
        subst h
        exact hinv2 item hitem
      · injection hc with h
        subst h
        simp only at hitem
        rcases mem_setQuantityAt c0.cartItems _ q item hitem with h | ⟨y, hy, hxy⟩
        · exact hinv2 item h
        · subst hxy
          exact hq

theorem deleteProduct_preserves_pos (st : State) (pid : String)
    (hinv : quantitiesPos st) :
    quantitiesPos (deleteProductFromCart st pid).1 := by
  obtain ⟨cartOpt, products, user⟩ := st
  intro c hc item hitem
  cases cartOpt with
  | none => exact absurd hc (by simp [deleteProductFromCart])
  | some c0 =>
    have hinv2 : ∀ item ∈ c0.cartItems, 0 < item.quantity := hinv c0 rfl
    unfold deleteProductFromCart at hc
    dsimp only at hc
    split at hc
    · injection hc with h
      subst h
      exact hinv2 item hitem
    · injection hc with h
      subst h
      simp only at hitem
      exact hinv2 item (mem_spliceOne c0.cartItems _ item hitem)

theorem checkout_preserves_pos (cfg : Config) (st : State)
    (hinv : quantitiesPos st) :
    quantitiesPos (checkout cfg st).1 := by
  obtain ⟨cartOpt, products, user⟩ := st
  intro c hc item hitem
  cases cartOpt with
  | none => exact absurd hc (by simp [checkout])
  | some c0 =>
    have hinv2 : ∀ item ∈ c0.cartItems, 0 < item.quantity := hinv c0 rfl
    unfold checkout at hc
    dsimp only at hc
    split_ifs at hc
    · injection hc with h
      subst h
      exact hinv2 item hitem
    · injection hc with h
      subst h
      exact hinv2 item hitem
    · injection hc with h
      subst h
      exact hinv2 item hitem
    · injection hc with h
      subst h
      simp at hitem

def emptyCartState : State :=
  { cart := some { email := "crio@x.com", cartItems := [] },
    products := [demoProduct], user := demoUser }

def zeroQtyCart : Cart :=
  { email := "crio@x.com", cartItems := [{ product := demoProduct, quantity := 0 }] }

/-- Counterexample to C9 as stated: the service itself validates no
quantity, so it accepts quantity 0 in addProductToCart and produces a
reachable cart whose item has quantity 0, which is not strictly
positive. -/
theorem quantity_invariant_cex :
    (addProductToCart emptyCartState "p1" 0).2 = Except.ok zeroQtyCart
    ∧ (addProductToCart emptyCartState "p1" 0).1.cart = some zeroQtyCart
    ∧ zeroQtyCart.cartItems = [{ product := demoProduct, quantity := 0 }]
    ∧ ¬ (0 : Int) < (0 : Int) :=
  ⟨rfl, rfl, rfl, by decide⟩

/-- C9 (amended): each cart-service operation preserves the invariant
that every cart item has a strictly positive quantity, provided the input
quantity handed to addProductToCart or updateProductInCart is itself
strictly positive; the service performs no quantity validation of its
own, so a non-positive input quantity is written as given. -/
theorem quantity_invariant_preserved (cfg : Config) (st : State) (pid : String) (q : Int)
    (hinv : quantitiesPos st) (hq : 0 < q) :
    quantitiesPos (addProductToCart st pid q).1
    ∧ quantitiesPos (updateProductInCart st pid q).1
    ∧ quantitiesPos (deleteProductFromCart st pid).1
    ∧ quantitiesPos (checkout cfg st).1 :=
  ⟨addProduct_preserves_pos st pid q hinv hq,
   updateProduct_preserves_pos st pid q hinv hq,
   deleteProduct_preserves_pos st pid hinv,
   checkout_preserves_pos cfg st hinv⟩

/-- Witness for C9 (amended): starting from the demo state, whose only
item has quantity 3, every operation with input quantity 2 preserves
positivity of all quantities. -/
theorem quantity_invariant_preserved_witness :
    quantitiesPos (addProductToCart demoState "p2" 2).1
    ∧ quantitiesPos (updateProductInCart demoState "p2" 2).1
    ∧ quantitiesPos (deleteProductFromCart demoState "p2").1
    ∧ quantitiesPos (checkout demoCfg demoState).1 :=
  quantity_invariant_preserved demoCfg demoState "p2" 2
    (fun c hc => by
      injection hc with h
      subst h
      decide)
    (by decide)

end QKart
